import Mathlib

/-! # The line-oriented C++ style checker of `src/main.cpp`

A shallow embedding of the checker and the properties its specification states.

Modelling decisions, all visible in the definitions below:

* A line is a `String`; substring search works on its list of characters.  The C++ program
  searches bytes; every pattern of the program is ASCII, and a byte string is a character
  list whose code points are below 256, so the quantification over all `String`s covers
  every line the program can read.
* `std::cout` is the list of records printed so far (`List Output`), oldest first; `render`
  gives the text of each record.  A function that prints takes the list and returns it
  extended.
* An `int&` parameter becomes an argument and a component of the result.
* The three C++ `int` counters are held as natural numbers, without wrap-around.  The model
  is the program as long as no counter exceeds `2 ^ 31 - 1`; past that the `int` overflows
  and the model says nothing about the program.  `scan_counters_bounded` shows that on a
  file of fewer than `2 ^ 28` records (at most 8 warnings per record) every counter stays
  below `2 ^ 31`.  A theorem about a whole scan whose content depends on the value of a
  counter carries that bound on the number of records as a hypothesis and states the range
  of the counters in its conclusion.
* The file system is a parameter: `fs filename` is `none` when `ifstream` cannot open the
  file and otherwise the sequence of records that successive `getline` calls return.
-/

namespace CppLinter

/-! ## Output records -/

/-- ANSI colour code used for warnings (`src/main.cpp:8`). -/
def YELLOW : String := "\x1b[33m"

/-- ANSI colour code used for notes (`src/main.cpp:9`). -/
def CYAN : String := "\x1b[36m"

/-- ANSI reset code (`src/main.cpp:10`). -/
def RESET : String := "\x1b[0m"

/-- The two decorations a diagnostic is printed with: `YELLOW` "Warning" or `CYAN` "Note". -/
inductive Severity
  | Warning
  | Note
  deriving DecidableEq

/-- The ten diagnostic texts of the program, one per printing statement. -/
inductive Message
  | rawPointers
  | namespaceStd
  | vectorAccess
  | ioUsage
  | constMethods
  | uninitVars
  | unusedIncludes
  | gotoUsage
  | missingReturnMain
  | functionTooLong (count : Nat)
  deriving DecidableEq

/-- The literal text printed after `]: ` for each message. -/
def Message.text : Message → String
  | .rawPointers => "Avoid using raw pointers. Use smart pointers instead."
  | .namespaceStd => "Avoid 'using namespace std;'. Use std:: prefix explicitly."
  | .vectorAccess => "Use '.at(i)' instead of '[]' for bounds checking in vectors."
  | .ioUsage =>
    "Use 'std::cin' and 'std::cout' or declare 'using namespace std;' (not recommended)."
  | .constMethods => "Consider marking non-modifying methods as 'const'."
  | .uninitVars => "Variable declared but not initialized."
  | .unusedIncludes => "Check if this header is actually used in the code."
  | .gotoUsage => "Avoid using 'goto'. It makes code hard to read and maintain."
  | .missingReturnMain => "Consider ending 'main' with 'return 0;' for clarity."
  | .functionTooLong count => "Function is too long (" ++ toString count ++ " lines)."

/-- One reported finding: decoration, line number, message. -/
structure Diagnostic where
  severity : Severity
  lineNumber : Nat
  message : Message
  deriving DecidableEq

/-- One record written to `std::cout` (each ends with `endl`). -/
inductive Output
  | diag (d : Diagnostic)
  | usage
  | openError (filename : String)
  | summary (warnings : Nat) (filename : String)
  deriving DecidableEq

/-- The text of a record, without the final newline of `endl`. -/
def render : Output → String
  | .diag ⟨.Warning, n, m⟩ => YELLOW ++ "Warning [Line " ++ toString n ++ "]: " ++ m.text ++ RESET
  | .diag ⟨.Note, n, m⟩ => CYAN ++ "Note [Line " ++ toString n ++ "]: " ++ m.text ++ RESET
  | .usage => "Usage: ./linter <filename.cpp>"
  | .openError filename => "Error: Could not open file " ++ filename
  | .summary warnings filename =>
    "\nSummary: " ++ toString warnings ++ " warning(s) found in " ++ filename ++ "."

/-- The record of a warning at a line. -/
def warningAt (lineNumber : Nat) (m : Message) : Output := .diag ⟨.Warning, lineNumber, m⟩

/-- The record of a note at a line. -/
def noteAt (lineNumber : Nat) (m : Message) : Output := .diag ⟨.Note, lineNumber, m⟩

/-! ## Substring search -/

/-- The search of `std::string::find(const string&)` on character lists: the first position
at which `word` occurs in the text, `none` for `npos`. -/
def findAt (word : List Char) : List Char → Option Nat
  | [] => if word.isPrefixOf [] then some 0 else none
  | c :: rest =>
    if word.isPrefixOf (c :: rest) then some 0 else (findAt word rest).map (· + 1)

/-- The search of `std::string::find(char)` on character lists. -/
def findCharAt (ch : Char) : List Char → Option Nat
  | [] => none
  | c :: rest => if c = ch then some 0 else (findCharAt ch rest).map (· + 1)

/-- Model of `line.find(word)`. -/
def find (line word : String) : Option Nat := findAt word.data line.data

/-- Model of `line.find(ch)` for a single character. -/
def findChar (line : String) (ch : Char) : Option Nat := findCharAt ch line.data

/-- Source `contains` (`src/main.cpp:13`): `line.find(word) != string::npos`. -/
def contains (line word : String) : Bool := find line word != none

/-! ## Rule functions (`src/main.cpp:18-77`) -/

/-- Source `checkRawPointers`. -/
def checkRawPointers (line : String) (lineNumber : Nat) (cout : List Output) (warnings : Nat) :
    List Output × Nat :=
  if contains line "*" && !contains line "new" && !contains line "#include"
      && !contains line "char* argv" then
    (cout ++ [warningAt lineNumber .rawPointers], warnings + 1)
  else (cout, warnings)

/-- Source `checkNamespaceStd`. -/
def checkNamespaceStd (line : String) (lineNumber : Nat) (cout : List Output) (warnings : Nat) :
    List Output × Nat :=
  if contains line "using namespace std" then
    (cout ++ [warningAt lineNumber .namespaceStd], warnings + 1)
  else (cout, warnings)

/-- Source `checkVectorAccess`. -/
def checkVectorAccess (line : String) (lineNumber : Nat) (cout : List Output) (warnings : Nat) :
    List Output × Nat :=
  if contains line "[" && contains line "]" && contains line "vector" then
    (cout ++ [warningAt lineNumber .vectorAccess], warnings + 1)
  else (cout, warnings)

/-- Source `checkIOUsage`. -/
def checkIOUsage (line : String) (lineNumber : Nat) (cout : List Output) (warnings : Nat) :
    List Output × Nat :=
  if (contains line "cin" || contains line "cout") && !contains line "std::"
      && !contains line "using namespace std" then
    (cout ++ [warningAt lineNumber .ioUsage], warnings + 1)
  else (cout, warnings)

/-- Source `checkConstMethods`. -/
def checkConstMethods (line : String) (lineNumber : Nat) (cout : List Output) (warnings : Nat) :
    List Output × Nat :=
  if (contains line "get" || contains line "Get") && contains line "()"
      && !contains line "const" && contains line "\x7b" then
    (cout ++ [warningAt lineNumber .constMethods], warnings + 1)
  else (cout, warnings)

/-- Source `checkUninitVars`; the two single-character tests use `find(char)`. -/
def checkUninitVars (line : String) (lineNumber : Nat) (cout : List Output) (warnings : Nat) :
    List Output × Nat :=
  if contains line "int " && findChar line '=' == none && findChar line ';' != none
      && !contains line "for" then
    (cout ++ [warningAt lineNumber .uninitVars], warnings + 1)
  else (cout, warnings)

/-- Source `checkUnusedIncludes`; it has no `warnings` parameter. -/
def checkUnusedIncludes (line : String) (lineNumber : Nat) (cout : List Output) : List Output :=
  if contains line "#include"
      && (contains line "<bits" || contains line "<vector>" || contains line "<map>") then
    cout ++ [noteAt lineNumber .unusedIncludes]
  else cout

/-- Source `checkGoto`. -/
def checkGoto (line : String) (lineNumber : Nat) (cout : List Output) (warnings : Nat) :
    List Output × Nat :=
  if contains line "goto " then
    (cout ++ [warningAt lineNumber .gotoUsage], warnings + 1)
  else (cout, warnings)

/-- Source `checkMissingReturnMain`; it has no `warnings` parameter. -/
def checkMissingReturnMain (line : String) (lineNumber : Nat) (cout : List Output) :
    List Output :=
  if contains line "int main" && !contains line "return" then
    cout ++ [noteAt lineNumber .missingReturnMain]
  else cout

/-! ## The scan loop of `runLinter` (`src/main.cpp:86-118`) -/

/-- The local variables of `runLinter` that live across loop iterations, plus `std::cout`.
The three `int` variables are natural numbers here: the value of the variable while it is
at most `2 ^ 31 - 1` (see `scan_counters_bounded`). -/
structure LoopState where
  cout : List Output
  lineNumber : Nat
  warnings : Nat
  functionLineCount : Nat
  inFunction : Bool
  deriving DecidableEq

/-- The values before the first `getline` (`src/main.cpp:86-90`), nothing printed yet. -/
def LoopState.initial : LoopState := ⟨[], 0, 0, 0, false⟩

/-- The function-length tracker, lines 105-117 of `runLinter`: the `if / else if` that
follows the nine rule calls.  It receives `std::cout` and `warnings` as the rules left them
and the tracker variables as the previous line left them. -/
def trackFunctionLength (line : String) (lineNumber : Nat) (cout : List Output)
    (warnings functionLineCount : Nat) (inFunction : Bool) :
    List Output × Nat × Nat × Bool :=
  if contains line "\x7b" && !contains line "class" && !contains line "namespace"
      && !inFunction then
    (cout, warnings, 1, true)
  else if inFunction then
    let functionLineCount := functionLineCount + 1
    if contains line "\x7d" then
      if functionLineCount > 50 then
        (cout ++ [warningAt lineNumber (.functionTooLong functionLineCount)], warnings + 1,
          functionLineCount, false)
      else (cout, warnings, functionLineCount, false)
    else (cout, warnings, functionLineCount, true)
  else (cout, warnings, functionLineCount, inFunction)

/-- One iteration of `while (getline(file, line))`, lines 93-117. -/
def loopBody (s : LoopState) (line : String) : LoopState :=
  let lineNumber := s.lineNumber + 1
  let r1 := checkRawPointers line lineNumber s.cout s.warnings
  let r2 := checkNamespaceStd line lineNumber r1.1 r1.2
  let r3 := checkVectorAccess line lineNumber r2.1 r2.2
  let r4 := checkIOUsage line lineNumber r3.1 r3.2
  let r5 := checkConstMethods line lineNumber r4.1 r4.2
  let r6 := checkUninitVars line lineNumber r5.1 r5.2
  let c7 := checkUnusedIncludes line lineNumber r6.1
  let r8 := checkGoto line lineNumber c7 r6.2
  let c9 := checkMissingReturnMain line lineNumber r8.1
  let t := trackFunctionLength line lineNumber c9 r8.2 s.functionLineCount s.inFunction
  ⟨t.1, lineNumber, t.2.1, t.2.2.1, t.2.2.2⟩

/-- The whole loop over the records of an opened file. -/
def scan (lines : List String) : LoopState := lines.foldl loopBody LoopState.initial

/-- What `ifstream` and `getline` give for a file name: `none` when the file cannot be
opened, else its records in order. -/
abbrev FileSystem := String → Option (List String)

/-- Source `runLinter` (`src/main.cpp:79-122`): everything it prints. -/
def runLinter (fs : FileSystem) (filename : String) : List Output :=
  match fs filename with
  | none => [.openError filename]
  | some lines =>
    let s := scan lines
    s.cout ++ [.summary s.warnings filename]

/-- Source `main` (`src/main.cpp:124-132`): what is printed and the exit status, where
`argc` is the length of `argv`. -/
def main (fs : FileSystem) (argv : List String) : List Output × Nat :=
  if argv.length < 2 then ([.usage], 1)
  else (runLinter fs (argv.getD 1 ""), 0)

/-! ## Vocabulary of the specification -/

/-- A record is a diagnostic of severity Warning. -/
def isWarning : Output → Bool
  | .diag d => decide (d.severity = .Warning)
  | _ => false

/-- A record is a diagnostic (of either severity). -/
def isDiagnostic : Output → Bool
  | .diag _ => true
  | _ => false

/-- A record is a "Function is too long" diagnostic. -/
def isLengthWarning : Output → Bool
  | .diag ⟨_, _, .functionTooLong _⟩ => true
  | _ => false

/-- A record is a summary line. -/
def isSummary : Output → Bool
  | .summary _ _ => true
  | _ => false

/-- The condition under which an idle tracker opens a function body on a line. -/
def opensFunction (line : String) : Bool :=
  contains line "\x7b" && !contains line "class" && !contains line "namespace"

/-- What the nine rules print for one line, each rule run on its own from an empty output,
in the order of the catalog. -/
def ruleDiagnostics (line : String) (lineNumber : Nat) : List Output :=
  (checkRawPointers line lineNumber [] 0).1 ++ (checkNamespaceStd line lineNumber [] 0).1
    ++ (checkVectorAccess line lineNumber [] 0).1 ++ (checkIOUsage line lineNumber [] 0).1
    ++ (checkConstMethods line lineNumber [] 0).1 ++ (checkUninitVars line lineNumber [] 0).1
    ++ checkUnusedIncludes line lineNumber [] ++ (checkGoto line lineNumber [] 0).1
    ++ checkMissingReturnMain line lineNumber []

/-- What the tracker prints for one line, given the state the earlier lines left. -/
def trackerDiagnostics (before : LoopState) (line : String) (lineNumber : Nat) : List Output :=
  (trackFunctionLength line lineNumber [] 0 before.functionLineCount before.inFunction).1

/-- The word occurs in the line as a contiguous run of characters. -/
def Occurs (word line : String) : Prop := word.data <:+: line.data

instance (word line : String) : Decidable (Occurs word line) :=
  inferInstanceAs (Decidable (word.data <:+: line.data))

theorem findAt_isSome_iff (word text : List Char) :
    (findAt word text).isSome = true ↔ word <:+: text := by
  induction text with
  | nil =>
    unfold findAt
    by_cases h : word.isPrefixOf [] = true
    · have hp : word <+: [] := List.isPrefixOf_iff_prefix.mp h
      simp [h, hp.isInfix]
    · have hn : ¬ word <:+: [] := fun hi =>
        h (List.isPrefixOf_iff_prefix.mpr (List.infix_nil.mp hi ▸ List.prefix_refl _))
      simp [h, hn]
  | cons c rest ih =>
    unfold findAt
    rw [List.infix_cons_iff]
    by_cases h : word.isPrefixOf (c :: rest) = true
    · have hp : word <+: c :: rest := List.isPrefixOf_iff_prefix.mp h
      simp [h, hp]
    · have hn : ¬ word <+: c :: rest := fun hp => h (List.isPrefixOf_iff_prefix.mpr hp)
      simp [h, hn, ih]

theorem findCharAt_isSome_iff (ch : Char) (text : List Char) :
    (findCharAt ch text).isSome = true ↔ ch ∈ text := by
  induction text with
  | nil => simp [findCharAt]
  | cons c rest ih =>
    unfold findCharAt
    by_cases h : c = ch
    · simp [h]
    · have h2 : ¬ ch = c := fun e => h e.symm
      simp [h, h2, ih]

/-- Source `contains` decides the substring relation. -/
theorem contains_iff (line word : String) : contains line word = true ↔ Occurs word line := by
  unfold contains find Occurs
  rw [← findAt_isSome_iff]
  cases findAt word.data line.data <;> simp

theorem contains_eq_false_iff (line word : String) :
    contains line word = false ↔ ¬ Occurs word line := by
  rw [← contains_iff]; simp

/-- The single-character search agrees with `contains` on the one-character word. -/
theorem findChar_ne_none (line : String) (ch : Char) :
    (findChar line ch != none) = contains line (String.singleton ch) := by
  have h1 : (findChar line ch != none) = true ↔ ch ∈ line.data := by
    unfold findChar
    rw [← findCharAt_isSome_iff]
    cases findCharAt ch line.data <;> simp
  have h2 : contains line (String.singleton ch) = true ↔ ch ∈ line.data := by
    rw [contains_iff]
    unfold Occurs
    show [ch] <:+: line.data ↔ _
    constructor
    · rintro ⟨s, t, h⟩
      rw [← h]
      simp
    · intro h
      obtain ⟨s, t, e⟩ := List.append_of_mem h
      exact ⟨s, t, by rw [e]; simp⟩
  rw [Bool.eq_iff_iff, h1, h2]

theorem findChar_eq_none (line : String) (ch : Char) :
    (findChar line ch == none) = !contains line (String.singleton ch) := by
  rw [← findChar_ne_none]
  cases findChar line ch <;> rfl

/-! ## Each rule appends to the output and adds to the count -/

theorem checkRawPointers_eq (line : String) (n : Nat) (cout : List Output) (w : Nat) :
    checkRawPointers line n cout w
      = (cout ++ (checkRawPointers line n [] 0).1, w + (checkRawPointers line n [] 0).2) := by
  unfold checkRawPointers; split <;> simp

theorem checkNamespaceStd_eq (line : String) (n : Nat) (cout : List Output) (w : Nat) :
    checkNamespaceStd line n cout w
      = (cout ++ (checkNamespaceStd line n [] 0).1, w + (checkNamespaceStd line n [] 0).2) := by
  unfold checkNamespaceStd; split <;> simp

theorem checkVectorAccess_eq (line : String) (n : Nat) (cout : List Output) (w : Nat) :
    checkVectorAccess line n cout w
      = (cout ++ (checkVectorAccess line n [] 0).1, w + (checkVectorAccess line n [] 0).2) := by
  unfold checkVectorAccess; split <;> simp

theorem checkIOUsage_eq (line : String) (n : Nat) (cout : List Output) (w : Nat) :
    checkIOUsage line n cout w
      = (cout ++ (checkIOUsage line n [] 0).1, w + (checkIOUsage line n [] 0).2) := by
  unfold checkIOUsage; split <;> simp

theorem checkConstMethods_eq (line : String) (n : Nat) (cout : List Output) (w : Nat) :
    checkConstMethods line n cout w
      = (cout ++ (checkConstMethods line n [] 0).1, w + (checkConstMethods line n [] 0).2) := by
  unfold checkConstMethods; split <;> simp

theorem checkUninitVars_eq (line : String) (n : Nat) (cout : List Output) (w : Nat) :
    checkUninitVars line n cout w
      = (cout ++ (checkUninitVars line n [] 0).1, w + (checkUninitVars line n [] 0).2) := by
  unfold checkUninitVars; split <;> simp

theorem checkUnusedIncludes_eq (line : String) (n : Nat) (cout : List Output) :
    checkUnusedIncludes line n cout = cout ++ checkUnusedIncludes line n [] := by
  unfold checkUnusedIncludes; split <;> simp

theorem checkGoto_eq (line : String) (n : Nat) (cout : List Output) (w : Nat) :
    checkGoto line n cout w
      = (cout ++ (checkGoto line n [] 0).1, w + (checkGoto line n [] 0).2) := by
  unfold checkGoto; split <;> simp

theorem checkMissingReturnMain_eq (line : String) (n : Nat) (cout : List Output) :
    checkMissingReturnMain line n cout = cout ++ checkMissingReturnMain line n [] := by
  unfold checkMissingReturnMain; split <;> simp

theorem trackFunctionLength_eq (line : String) (n : Nat) (cout : List Output) (w k : Nat)
    (b : Bool) :
    trackFunctionLength line n cout w k b
      = (cout ++ (trackFunctionLength line n [] 0 k b).1,
          w + (trackFunctionLength line n [] 0 k b).2.1,
          (trackFunctionLength line n [] 0 k b).2.2.1,
          (trackFunctionLength line n [] 0 k b).2.2.2) := by
  unfold trackFunctionLength
  split
  · simp
  · split
    · dsimp only
      split
      · split <;> simp
      · simp
    · simp

/-! ## The count a component adds is the number of warnings it prints -/

theorem checkRawPointers_count (line : String) (n : Nat) :
    (checkRawPointers line n [] 0).2 = (checkRawPointers line n [] 0).1.countP isWarning := by
  unfold checkRawPointers; split <;> simp [warningAt, isWarning]

theorem checkNamespaceStd_count (line : String) (n : Nat) :
    (checkNamespaceStd line n [] 0).2 = (checkNamespaceStd line n [] 0).1.countP isWarning := by
  unfold checkNamespaceStd; split <;> simp [warningAt, isWarning]

theorem checkVectorAccess_count (line : String) (n : Nat) :
    (checkVectorAccess line n [] 0).2 = (checkVectorAccess line n [] 0).1.countP isWarning := by
  unfold checkVectorAccess; split <;> simp [warningAt, isWarning]

theorem checkIOUsage_count (line : String) (n : Nat) :
    (checkIOUsage line n [] 0).2 = (checkIOUsage line n [] 0).1.countP isWarning := by
  unfold checkIOUsage; split <;> simp [warningAt, isWarning]

theorem checkConstMethods_count (line : String) (n : Nat) :
    (checkConstMethods line n [] 0).2 = (checkConstMethods line n [] 0).1.countP isWarning := by
  unfold checkConstMethods; split <;> simp [warningAt, isWarning]

theorem checkUninitVars_count (line : String) (n : Nat) :
    (checkUninitVars line n [] 0).2 = (checkUninitVars line n [] 0).1.countP isWarning := by
  unfold checkUninitVars; split <;> simp [warningAt, isWarning]

theorem checkUnusedIncludes_count (line : String) (n : Nat) :
    (checkUnusedIncludes line n []).countP isWarning = 0 := by
  unfold checkUnusedIncludes; split <;> simp [noteAt, isWarning]

theorem checkGoto_count (line : String) (n : Nat) :
    (checkGoto line n [] 0).2 = (checkGoto line n [] 0).1.countP isWarning := by
  unfold checkGoto; split <;> simp [warningAt, isWarning]

theorem checkMissingReturnMain_count (line : String) (n : Nat) :
    (checkMissingReturnMain line n []).countP isWarning = 0 := by
  unfold checkMissingReturnMain; split <;> simp [noteAt, isWarning]

theorem trackFunctionLength_count (line : String) (n k : Nat) (b : Bool) :
    (trackFunctionLength line n [] 0 k b).2.1
      = (trackFunctionLength line n [] 0 k b).1.countP isWarning := by
  unfold trackFunctionLength
  split
  · simp
  · split
    · dsimp only
      split
      · split <;> simp [warningAt, isWarning]
      · simp
    · simp

/-! ## One loop iteration, component by component -/

theorem loopBody_lineNumber (s : LoopState) (line : String) :
    (loopBody s line).lineNumber = s.lineNumber + 1 := rfl

theorem loopBody_functionLineCount (s : LoopState) (line : String) :
    (loopBody s line).functionLineCount
      = (trackFunctionLength line (s.lineNumber + 1) [] 0
          s.functionLineCount s.inFunction).2.2.1 := by
  show (trackFunctionLength _ _ _ _ _ _).2.2.1 = _
  rw [trackFunctionLength_eq]

theorem loopBody_inFunction (s : LoopState) (line : String) :
    (loopBody s line).inFunction
      = (trackFunctionLength line (s.lineNumber + 1) [] 0
          s.functionLineCount s.inFunction).2.2.2 := by
  show (trackFunctionLength _ _ _ _ _ _).2.2.2 = _
  rw [trackFunctionLength_eq]

theorem loopBody_cout (s : LoopState) (line : String) :
    (loopBody s line).cout
      = s.cout ++ (ruleDiagnostics line (s.lineNumber + 1)
          ++ trackerDiagnostics s line (s.lineNumber + 1)) := by
  show (trackFunctionLength _ _ _ _ _ _).1 = _
  rw [trackFunctionLength_eq, checkMissingReturnMain_eq, checkGoto_eq, checkUnusedIncludes_eq,
    checkUninitVars_eq, checkConstMethods_eq, checkIOUsage_eq, checkVectorAccess_eq,
    checkNamespaceStd_eq, checkRawPointers_eq]
  simp only [ruleDiagnostics, trackerDiagnostics, List.append_assoc]

theorem loopBody_warnings (s : LoopState) (line : String) :
    (loopBody s line).warnings
      = s.warnings + (ruleDiagnostics line (s.lineNumber + 1)
          ++ trackerDiagnostics s line (s.lineNumber + 1)).countP isWarning := by
  show (trackFunctionLength _ _ _ _ _ _).2.1 = _
  rw [trackFunctionLength_eq, checkGoto_eq, checkUninitVars_eq, checkConstMethods_eq,
    checkIOUsage_eq, checkVectorAccess_eq, checkNamespaceStd_eq, checkRawPointers_eq]
  simp only [ruleDiagnostics, trackerDiagnostics, List.countP_append,
    checkUnusedIncludes_count, checkMissingReturnMain_count,
    ← checkRawPointers_count, ← checkNamespaceStd_count, ← checkVectorAccess_count,
    ← checkIOUsage_count, ← checkConstMethods_count, ← checkUninitVars_count,
    ← checkGoto_count, ← trackFunctionLength_count]
  omega

/-! ## The scan as a fold -/

theorem scan_nil : scan [] = LoopState.initial := rfl

theorem scan_append (xs ys : List String) :
    scan (xs ++ ys) = ys.foldl loopBody (scan xs) := by
  unfold scan; rw [List.foldl_append]

theorem scan_concat (xs : List String) (line : String) :
    scan (xs ++ [line]) = loopBody (scan xs) line := by
  rw [scan_append]; rfl

theorem foldl_loopBody_lineNumber (lines : List String) (s : LoopState) :
    (lines.foldl loopBody s).lineNumber = s.lineNumber + lines.length := by
  induction lines generalizing s with
  | nil => rfl
  | cons l ls ih =>
    rw [List.foldl_cons, ih, loopBody_lineNumber, List.length_cons]; omega

/-- The line counter after the loop is the number of records read. -/
theorem scan_lineNumber (lines : List String) : (scan lines).lineNumber = lines.length := by
  unfold scan
  rw [foldl_loopBody_lineNumber]
  simp [LoopState.initial]

theorem foldl_loopBody_warnings (lines : List String) (s : LoopState)
    (h : s.warnings = s.cout.countP isWarning) :
    (lines.foldl loopBody s).warnings = (lines.foldl loopBody s).cout.countP isWarning := by
  induction lines generalizing s with
  | nil => exact h
  | cons l ls ih =>
    rw [List.foldl_cons]
    apply ih
    rw [loopBody_warnings, loopBody_cout, h]
    simp only [List.countP_append]

/-- The running count is the number of warnings printed so far. -/
theorem scan_warnings (lines : List String) :
    (scan lines).warnings = (scan lines).cout.countP isWarning :=
  foldl_loopBody_warnings lines LoopState.initial rfl

theorem ruleDiagnostics_isDiagnostic (line : String) (n : Nat) :
    ∀ o ∈ ruleDiagnostics line n, isDiagnostic o = true := by
  intro o ho
  simp only [ruleDiagnostics, checkRawPointers, checkNamespaceStd, checkVectorAccess,
    checkIOUsage, checkConstMethods, checkUninitVars, checkUnusedIncludes, checkGoto,
    checkMissingReturnMain, List.mem_append] at ho
  rcases ho with ((((((((h | h) | h) | h) | h) | h) | h) | h) | h) <;>
    ((split at h <;> simp [warningAt, noteAt] at h); subst h; rfl)

theorem trackerDiagnostics_isDiagnostic (s : LoopState) (line : String) (n : Nat) :
    ∀ o ∈ trackerDiagnostics s line n, isDiagnostic o = true := by
  intro o ho
  unfold trackerDiagnostics trackFunctionLength at ho
  split at ho
  · simp at ho
  · split at ho
    · dsimp only at ho
      split at ho
      · split at ho
        · simp [warningAt] at ho; subst ho; rfl
        · simp at ho
      · simp at ho
    · simp at ho

theorem foldl_loopBody_isDiagnostic (lines : List String) (s : LoopState)
    (h : ∀ o ∈ s.cout, isDiagnostic o = true) :
    ∀ o ∈ (lines.foldl loopBody s).cout, isDiagnostic o = true := by
  induction lines generalizing s with
  | nil => exact h
  | cons l ls ih =>
    rw [List.foldl_cons]
    apply ih
    intro o ho
    rw [loopBody_cout, List.mem_append, List.mem_append] at ho
    rcases ho with ho | ho | ho
    · exact h o ho
    · exact ruleDiagnostics_isDiagnostic _ _ o ho
    · exact trackerDiagnostics_isDiagnostic _ _ _ o ho

/-- Everything the loop prints is a diagnostic. -/
theorem scan_isDiagnostic (lines : List String) :
    ∀ o ∈ (scan lines).cout, isDiagnostic o = true :=
  foldl_loopBody_isDiagnostic lines LoopState.initial (by simp [LoopState.initial])

/-! ## The counters stay in the range of a C++ `int` -/

theorem checkRawPointers_le (line : String) (n : Nat) : (checkRawPointers line n [] 0).2 ≤ 1 := by
  unfold checkRawPointers; split <;> simp

theorem checkNamespaceStd_le (line : String) (n : Nat) :
    (checkNamespaceStd line n [] 0).2 ≤ 1 := by
  unfold checkNamespaceStd; split <;> simp

theorem checkVectorAccess_le (line : String) (n : Nat) :
    (checkVectorAccess line n [] 0).2 ≤ 1 := by
  unfold checkVectorAccess; split <;> simp

theorem checkIOUsage_le (line : String) (n : Nat) : (checkIOUsage line n [] 0).2 ≤ 1 := by
  unfold checkIOUsage; split <;> simp

theorem checkConstMethods_le (line : String) (n : Nat) :
    (checkConstMethods line n [] 0).2 ≤ 1 := by
  unfold checkConstMethods; split <;> simp

theorem checkUninitVars_le (line : String) (n : Nat) : (checkUninitVars line n [] 0).2 ≤ 1 := by
  unfold checkUninitVars; split <;> simp

theorem checkGoto_le (line : String) (n : Nat) : (checkGoto line n [] 0).2 ≤ 1 := by
  unfold checkGoto; split <;> simp

theorem trackFunctionLength_le (line : String) (n k : Nat) (b : Bool) :
    (trackFunctionLength line n [] 0 k b).2.1 ≤ 1
      ∧ (trackFunctionLength line n [] 0 k b).2.2.1 ≤ k + 1 := by
  unfold trackFunctionLength
  split
  · simp
  · split
    · dsimp only
      split
      · split <;> simp
      · simp
    · simp

theorem loopBody_warnings_le (s : LoopState) (line : String) :
    (loopBody s line).warnings ≤ s.warnings + 8 := by
  show (trackFunctionLength _ _ _ _ _ _).2.1 ≤ _
  rw [trackFunctionLength_eq, checkGoto_eq, checkUninitVars_eq, checkConstMethods_eq,
    checkIOUsage_eq, checkVectorAccess_eq, checkNamespaceStd_eq, checkRawPointers_eq]
  have h1 := checkRawPointers_le line (s.lineNumber + 1)
  have h2 := checkNamespaceStd_le line (s.lineNumber + 1)
  have h3 := checkVectorAccess_le line (s.lineNumber + 1)
  have h4 := checkIOUsage_le line (s.lineNumber + 1)
  have h5 := checkConstMethods_le line (s.lineNumber + 1)
  have h6 := checkUninitVars_le line (s.lineNumber + 1)
  have h8 := checkGoto_le line (s.lineNumber + 1)
  have ht := (trackFunctionLength_le line (s.lineNumber + 1) s.functionLineCount s.inFunction).1
  dsimp only
  omega

theorem foldl_loopBody_bounds (lines : List String) (s : LoopState) :
    (lines.foldl loopBody s).warnings ≤ s.warnings + 8 * lines.length
      ∧ (lines.foldl loopBody s).functionLineCount ≤ s.functionLineCount + lines.length := by
  induction lines generalizing s with
  | nil => simp
  | cons l ls ih =>
    obtain ⟨i1, i2⟩ := ih (loopBody s l)
    have hw := loopBody_warnings_le s l
    have hc : (loopBody s l).functionLineCount ≤ s.functionLineCount + 1 := by
      rw [loopBody_functionLineCount]
      exact (trackFunctionLength_le _ _ _ _).2
    rw [List.foldl_cons, List.length_cons]
    constructor <;> omega

/-- On a file of fewer than `2 ^ 28` records the three counters of `runLinter` stay below
`2 ^ 31`, so the natural numbers of the model are the values of the C++ `int` variables. -/
theorem scan_counters_bounded (lines : List String) (h : lines.length < 2 ^ 28) :
    (scan lines).lineNumber < 2 ^ 31 ∧ (scan lines).warnings < 2 ^ 31
      ∧ (scan lines).functionLineCount < 2 ^ 31 := by
  obtain ⟨i1, i2⟩ := foldl_loopBody_bounds lines LoopState.initial
  have hn := scan_lineNumber lines
  have w0 : LoopState.initial.warnings = 0 := rfl
  have c0 : LoopState.initial.functionLineCount = 0 := rfl
  unfold scan at hn ⊢
  refine ⟨?_, ?_, ?_⟩ <;> omega

/-! ## Claims -/

/-- C1: for a file that opens and has fewer than `2 ^ 28` records (so that no `int` counter
of the program overflows: all stay below `2 ^ 31`), `runLinter` prints the diagnostics of
the scan followed by one summary line, and the count in that summary is the number of
printed diagnostics whose severity is Warning; a Note never counts.  Each loop iteration
adds to the count exactly the number of Warning records it prints (rules and tracker
together). -/
theorem runLinter_summary_counts_warnings (fs : FileSystem) (filename : String)
    (lines : List String) (hopen : fs filename = some lines)
    (hbound : lines.length < 2 ^ 28) :
    runLinter fs filename
        = (scan lines).cout ++ [.summary ((scan lines).cout.countP isWarning) filename]
      ∧ (∀ o ∈ (scan lines).cout, isDiagnostic o = true)
      ∧ ((scan lines).lineNumber < 2 ^ 31 ∧ (scan lines).warnings < 2 ^ 31
          ∧ (scan lines).functionLineCount < 2 ^ 31)
      ∧ (∀ (s : LoopState) (line : String),
          (loopBody s line).warnings
            = s.warnings + (ruleDiagnostics line (s.lineNumber + 1)).countP isWarning
              + (trackerDiagnostics s line (s.lineNumber + 1)).countP isWarning)
      ∧ (∀ (line : String) (n : Nat) (cout : List Output),
          (checkUnusedIncludes line n cout).countP isWarning = cout.countP isWarning
          ∧ (checkMissingReturnMain line n cout).countP isWarning = cout.countP isWarning) := by
  refine ⟨?_, scan_isDiagnostic lines, scan_counters_bounded lines hbound, ?_, ?_⟩
  · unfold runLinter
    rw [hopen]
    simp only [scan_warnings]
  · intro s line
    rw [loopBody_warnings, List.countP_append]; omega
  · intro line n cout
    rw [checkUnusedIncludes_eq, checkMissingReturnMain_eq, List.countP_append,
      List.countP_append, checkUnusedIncludes_count, checkMissingReturnMain_count]
    simp

/-- Witness for C1: a three-line file with one Note and two Warnings. -/
theorem runLinter_summary_counts_warnings_witness :
    (fun _ => some ["#include <map>", "goto end;", "int* p;"] : FileSystem) "a.cpp"
        = some ["#include <map>", "goto end;", "int* p;"]
      ∧ ["#include <map>", "goto end;", "int* p;"].length < 2 ^ 28
      ∧ runLinter (fun _ => some ["#include <map>", "goto end;", "int* p;"]) "a.cpp"
        = (scan ["#include <map>", "goto end;", "int* p;"]).cout
          ++ [.summary ((scan ["#include <map>", "goto end;", "int* p;"]).cout.countP isWarning)
                "a.cpp"] :=
  ⟨rfl, by decide,
    (runLinter_summary_counts_warnings (fun _ => some ["#include <map>", "goto end;", "int* p;"])
      "a.cpp" ["#include <map>", "goto end;", "int* p;"] rfl (by decide)).1⟩

theorem findChar_eq_sign (line : String) :
    (findChar line '=' == none) = !contains line "=" := findChar_eq_none line '='

theorem findChar_semicolon (line : String) :
    (findChar line ';' != none) = contains line ";" := findChar_ne_none line ';'

/-- C2: every rule of the catalog, on every line, appends exactly one diagnostic carrying the
line number and the catalog severity when its trigger condition holds on the raw line, and
leaves the output unchanged otherwise; the seven Warning rules add one to the count exactly
when they print.  The trigger conditions are the substring tests of the catalog, with
"contains" read as occurrence of a contiguous substring. -/
theorem rules_emit_exactly_on_trigger (line : String) (n : Nat) (cout : List Output) (w : Nat) :
    checkRawPointers line n cout w
        = (if Occurs "*" line ∧ ¬ Occurs "new" line ∧ ¬ Occurs "#include" line
              ∧ ¬ Occurs "char* argv" line
            then (cout ++ [.diag ⟨.Warning, n, .rawPointers⟩], w + 1) else (cout, w))
      ∧ checkNamespaceStd line n cout w
        = (if Occurs "using namespace std" line
            then (cout ++ [.diag ⟨.Warning, n, .namespaceStd⟩], w + 1) else (cout, w))
      ∧ checkVectorAccess line n cout w
        = (if Occurs "[" line ∧ Occurs "]" line ∧ Occurs "vector" line
            then (cout ++ [.diag ⟨.Warning, n, .vectorAccess⟩], w + 1) else (cout, w))
      ∧ checkIOUsage line n cout w
        = (if (Occurs "cin" line ∨ Occurs "cout" line) ∧ ¬ Occurs "std::" line
              ∧ ¬ Occurs "using namespace std" line
            then (cout ++ [.diag ⟨.Warning, n, .ioUsage⟩], w + 1) else (cout, w))
      ∧ checkConstMethods line n cout w
        = (if (Occurs "get" line ∨ Occurs "Get" line) ∧ Occurs "()" line
              ∧ ¬ Occurs "const" line ∧ Occurs "\x7b" line
            then (cout ++ [.diag ⟨.Warning, n, .constMethods⟩], w + 1) else (cout, w))
      ∧ checkUninitVars line n cout w
        = (if Occurs "int " line ∧ ¬ Occurs "=" line ∧ Occurs ";" line ∧ ¬ Occurs "for" line
            then (cout ++ [.diag ⟨.Warning, n, .uninitVars⟩], w + 1) else (cout, w))
      ∧ checkUnusedIncludes line n cout
        = (if Occurs "#include" line
              ∧ (Occurs "<bits" line ∨ Occurs "<vector>" line ∨ Occurs "<map>" line)
            then cout ++ [.diag ⟨.Note, n, .unusedIncludes⟩] else cout)
      ∧ checkGoto line n cout w
        = (if Occurs "goto " line
            then (cout ++ [.diag ⟨.Warning, n, .gotoUsage⟩], w + 1) else (cout, w))
      ∧ checkMissingReturnMain line n cout
        = (if Occurs "int main" line ∧ ¬ Occurs "return" line
            then cout ++ [.diag ⟨.Note, n, .missingReturnMain⟩] else cout) := by
  simp only [← contains_iff]
  refine ⟨?_, ?_, ?_, ?_, ?_, ?_, ?_, ?_, ?_⟩
  · simp [checkRawPointers, warningAt, and_assoc]
  · simp [checkNamespaceStd, warningAt]
  · simp [checkVectorAccess, warningAt, and_assoc]
  · simp [checkIOUsage, warningAt, and_assoc]
  · simp [checkConstMethods, warningAt, and_assoc]
  · simp [checkUninitVars, warningAt, and_assoc, findChar_eq_sign, findChar_semicolon]
  · simp [checkUnusedIncludes, noteAt, or_assoc]
  · simp [checkGoto, warningAt]
  · simp [checkMissingReturnMain, noteAt]

/-! ## The tracker, case by case -/

theorem trackFunctionLength_open (line : String) (n : Nat) (cout : List Output) (w k : Nat)
    (h : opensFunction line = true) :
    trackFunctionLength line n cout w k false = (cout, w, 1, true) := by
  unfold opensFunction at h
  unfold trackFunctionLength
  simp [h]

theorem trackFunctionLength_idle (line : String) (n : Nat) (cout : List Output) (w k : Nat)
    (h : opensFunction line = false) :
    trackFunctionLength line n cout w k false = (cout, w, k, false) := by
  unfold opensFunction at h
  unfold trackFunctionLength
  simp [h]

theorem trackFunctionLength_inside (line : String) (n : Nat) (cout : List Output) (w k : Nat)
    (h : contains line "\x7d" = false) :
    trackFunctionLength line n cout w k true = (cout, w, k + 1, true) := by
  unfold trackFunctionLength
  simp [h]

theorem trackFunctionLength_close (line : String) (n : Nat) (cout : List Output) (w k : Nat)
    (h : contains line "\x7d" = true) :
    trackFunctionLength line n cout w k true
      = (if k + 1 > 50 then (cout ++ [warningAt n (.functionTooLong (k + 1))], w + 1, k + 1, false)
          else (cout, w, k + 1, false)) := by
  unfold trackFunctionLength
  simp [h]

theorem ruleDiagnostics_lengthWarnings (line : String) (n : Nat) :
    (ruleDiagnostics line n).filter isLengthWarning = [] := by
  rw [List.filter_eq_nil_iff]
  intro o ho
  simp only [ruleDiagnostics, checkRawPointers, checkNamespaceStd, checkVectorAccess,
    checkIOUsage, checkConstMethods, checkUninitVars, checkUnusedIncludes, checkGoto,
    checkMissingReturnMain, List.mem_append] at ho
  rcases ho with ((((((((h | h) | h) | h) | h) | h) | h) | h) | h) <;>
    ((split at h <;> simp [warningAt, noteAt] at h); subst h; simp [isLengthWarning])

/-- Inside a function body, lines without a closing brace only advance the line count. -/
theorem foldl_loopBody_inside (mid : List String) (s : LoopState)
    (hin : s.inFunction = true) (hmid : ∀ m ∈ mid, contains m "\x7d" = false) :
    (mid.foldl loopBody s).inFunction = true
      ∧ (mid.foldl loopBody s).functionLineCount = s.functionLineCount + mid.length
      ∧ (mid.foldl loopBody s).cout.filter isLengthWarning = s.cout.filter isLengthWarning := by
  induction mid generalizing s with
  | nil => exact ⟨hin, rfl, rfl⟩
  | cons m ms ih =>
    have hm : contains m "\x7d" = false := hmid m (List.mem_cons_self _ _)
    have h1 : (loopBody s m).inFunction = true := by
      rw [loopBody_inFunction, hin, trackFunctionLength_inside _ _ _ _ _ hm]
    have h2 : (loopBody s m).functionLineCount = s.functionLineCount + 1 := by
      rw [loopBody_functionLineCount, hin, trackFunctionLength_inside _ _ _ _ _ hm]
    have h3 : (loopBody s m).cout.filter isLengthWarning = s.cout.filter isLengthWarning := by
      rw [loopBody_cout]
      unfold trackerDiagnostics
      rw [hin, trackFunctionLength_inside _ _ _ _ _ hm]
      simp [ruleDiagnostics_lengthWarnings]
    obtain ⟨i1, i2, i3⟩ := ih (loopBody s m) h1 (fun x hx => hmid x (List.mem_cons_of_mem _ hx))
    rw [List.foldl_cons]
    refine ⟨i1, ?_, ?_⟩
    · rw [i2, h2, List.length_cons]; omega
    · rw [i3, h3]

/-- A function body opened by an idle tracker: the state before its closing line. -/
theorem scan_block_open (pre mid : List String) (lo : String)
    (hidle : (scan pre).inFunction = false) (hopen : opensFunction lo = true)
    (hmid : ∀ m ∈ mid, contains m "\x7d" = false) :
    (scan (pre ++ lo :: mid)).inFunction = true
      ∧ (scan (pre ++ lo :: mid)).functionLineCount = mid.length + 1
      ∧ (scan (pre ++ lo :: mid)).cout.filter isLengthWarning
          = (scan pre).cout.filter isLengthWarning
      ∧ (scan (pre ++ lo :: mid)).lineNumber = pre.length + mid.length + 1 := by
  have h1 : (loopBody (scan pre) lo).inFunction = true := by
    rw [loopBody_inFunction, hidle, trackFunctionLength_open _ _ _ _ _ hopen]
  have h2 : (loopBody (scan pre) lo).functionLineCount = 1 := by
    rw [loopBody_functionLineCount, hidle, trackFunctionLength_open _ _ _ _ _ hopen]
  have h3 : (loopBody (scan pre) lo).cout.filter isLengthWarning
      = (scan pre).cout.filter isLengthWarning := by
    rw [loopBody_cout]
    unfold trackerDiagnostics
    rw [hidle, trackFunctionLength_open _ _ _ _ _ hopen]
    simp [ruleDiagnostics_lengthWarnings]
  obtain ⟨i1, i2, i3⟩ := foldl_loopBody_inside mid (loopBody (scan pre) lo) h1 hmid
  rw [scan_append, List.foldl_cons]
  refine ⟨i1, ?_, ?_, ?_⟩
  · rw [i2, h2]; omega
  · rw [i3, h3]
  · rw [foldl_loopBody_lineNumber, loopBody_lineNumber, scan_lineNumber]; omega

/-- A function body opened by an idle tracker and closed by the first later line with a
closing brace: what the closing line does. -/
theorem scan_block_close (pre mid : List String) (lo lc : String)
    (hidle : (scan pre).inFunction = false) (hopen : opensFunction lo = true)
    (hmid : ∀ m ∈ mid, contains m "\x7d" = false) (hclose : contains lc "\x7d" = true) :
    (scan (pre ++ lo :: mid ++ [lc])).inFunction = false
      ∧ trackerDiagnostics (scan (pre ++ lo :: mid)) lc (pre.length + mid.length + 2)
          = (if mid.length + 2 > 50
              then [warningAt (pre.length + mid.length + 2) (.functionTooLong (mid.length + 2))]
              else [])
      ∧ (scan (pre ++ lo :: mid ++ [lc])).cout
          = (scan (pre ++ lo :: mid)).cout ++ ruleDiagnostics lc (pre.length + mid.length + 2)
              ++ trackerDiagnostics (scan (pre ++ lo :: mid)) lc (pre.length + mid.length + 2) := by
  obtain ⟨i1, i2, _, i4⟩ := scan_block_open pre mid lo hidle hopen hmid
  refine ⟨?_, ?_, ?_⟩
  · rw [scan_concat, loopBody_inFunction, i1, i2, trackFunctionLength_close _ _ _ _ _ hclose]
    split <;> rfl
  · unfold trackerDiagnostics
    rw [i1, i2, trackFunctionLength_close _ _ _ _ _ hclose]
    split <;> rfl
  · rw [scan_concat, loopBody_cout, i4, List.append_assoc]

/-- The length warnings of a scan that ends with the closing line of such a block. -/
theorem scan_block_lengthWarnings (pre mid : List String) (lo lc : String)
    (hidle : (scan pre).inFunction = false) (hopen : opensFunction lo = true)
    (hmid : ∀ m ∈ mid, contains m "\x7d" = false) (hclose : contains lc "\x7d" = true) :
    (scan (pre ++ lo :: mid ++ [lc])).cout.filter isLengthWarning
      = (scan pre).cout.filter isLengthWarning
          ++ (if mid.length + 2 > 50
              then [warningAt (pre.length + mid.length + 2) (.functionTooLong (mid.length + 2))]
              else []) := by
  obtain ⟨_, i2, i3⟩ := scan_block_close pre mid lo lc hidle hopen hmid hclose
  obtain ⟨_, _, j3, _⟩ := scan_block_open pre mid lo hidle hopen hmid
  rw [i3, i2, List.filter_append, List.filter_append, ruleDiagnostics_lengthWarnings, j3]
  split <;> simp [warningAt, isLengthWarning]

theorem opensFunction_of (line : String) (h1 : contains line "\x7b" = true)
    (h2 : contains line "class" = false) (h3 : contains line "namespace" = false) :
    opensFunction line = true := by
  unfold opensFunction; simp [h1, h2, h3]

/-- C3: let the tracker be Idle after the lines `pre`, let the next line `lo` (line
`o = pre.length + 1`) contain an opening brace and neither `class` nor `namespace`, let
no line of `mid` contain a closing brace (opening braces are allowed), and let `lc` (line
`c = pre.length + mid.length + 2`) contain a closing brace.  Then the tracker stays
InFunction through `mid` with count `c - o`, it is Idle after line `c`, and line `c` prints
its rule diagnostics followed by the length warning exactly when `c - o + 1 > 50`, the
warning carrying line number `c` and length `c - o + 1 = mid.length + 2`.  The lines up to
line `c` are fewer than `2 ^ 28`, so that no `int` counter of the program overflows: all
stay below `2 ^ 31`. -/
theorem function_block_warns_iff_too_long (pre mid : List String) (lo lc : String)
    (hbound : pre.length + mid.length + 2 < 2 ^ 28)
    (hidle : (scan pre).inFunction = false)
    (hbrace : contains lo "\x7b" = true) (hclass : contains lo "class" = false)
    (hnamespace : contains lo "namespace" = false)
    (hmid : ∀ m ∈ mid, contains m "\x7d" = false)
    (hclose : contains lc "\x7d" = true) :
    (scan (pre ++ lo :: mid)).inFunction = true
      ∧ (scan (pre ++ lo :: mid)).functionLineCount
          = (pre.length + mid.length + 2) - (pre.length + 1)
      ∧ (scan (pre ++ lo :: mid ++ [lc])).inFunction = false
      ∧ (scan (pre ++ lo :: mid ++ [lc])).cout
          = (scan (pre ++ lo :: mid)).cout ++ ruleDiagnostics lc (pre.length + mid.length + 2)
              ++ (if (pre.length + mid.length + 2) - (pre.length + 1) + 1 > 50
                  then [.diag ⟨.Warning, pre.length + mid.length + 2,
                          .functionTooLong ((pre.length + mid.length + 2) - (pre.length + 1) + 1)⟩]
                  else [])
      ∧ (pre.length + mid.length + 2) - (pre.length + 1) + 1 = mid.length + 2
      ∧ ((scan (pre ++ lo :: mid ++ [lc])).lineNumber < 2 ^ 31
          ∧ (scan (pre ++ lo :: mid ++ [lc])).warnings < 2 ^ 31
          ∧ (scan (pre ++ lo :: mid ++ [lc])).functionLineCount < 2 ^ 31) := by
  have hopen := opensFunction_of lo hbrace hclass hnamespace
  obtain ⟨i1, i2, _, _⟩ := scan_block_open pre mid lo hidle hopen hmid
  obtain ⟨j1, j2, j3⟩ := scan_block_close pre mid lo lc hidle hopen hmid hclose
  have e : (pre.length + mid.length + 2) - (pre.length + 1) + 1 = mid.length + 2 := by omega
  have hlen : (pre ++ lo :: mid ++ [lc]).length < 2 ^ 28 := by
    simp only [List.length_append, List.length_cons, List.length_nil]
    omega
  refine ⟨i1, ?_, j1, ?_, e, scan_counters_bounded _ hlen⟩
  · rw [i2]; omega
  · rw [j3, j2, e]; rfl

/-- Witness for C3: a two-line prefix, a block with a nested brace pair opener, closed on
line 6. -/
theorem function_block_warns_iff_too_long_witness :
    ["int a = 1;", "int b = 2;"].length + ["if (a) \x7b", "b = a;"].length + 2 < 2 ^ 28
      ∧ (scan ["int a = 1;", "int b = 2;"]).inFunction = false
      ∧ contains "void f() \x7b" "\x7b" = true
      ∧ (scan (["int a = 1;", "int b = 2;"] ++ "void f() \x7b" :: ["if (a) \x7b", "b = a;"]
            ++ ["\x7d"])).inFunction = false :=
  ⟨by decide, by decide, by decide,
    (function_block_warns_iff_too_long ["int a = 1;", "int b = 2;"] ["if (a) \x7b", "b = a;"]
      "void f() \x7b" "\x7d" (by decide) (by decide) (by decide) (by decide) (by decide)
      (by decide) (by decide)).2.2.1⟩

/-- C4, against the claim as stated: an opening line, a body of exactly 50 lines without
any brace and a closing line make the scan print a length warning, for 52 lines. -/
theorem fifty_line_body_is_reported :
    contains "void f() \x7b" "\x7b" = true ∧ contains "void f() \x7b" "class" = false
      ∧ contains "void f() \x7b" "namespace" = false
      ∧ (List.replicate 50 "x = x + 1;").length = 50
      ∧ (∀ b ∈ List.replicate 50 "x = x + 1;",
          contains b "\x7b" = false ∧ contains b "\x7d" = false)
      ∧ contains "\x7d" "\x7d" = true
      ∧ (scan ("void f() \x7b" :: List.replicate 50 "x = x + 1;" ++ ["\x7d"])).cout.filter
            isLengthWarning
          = [.diag ⟨.Warning, 52, .functionTooLong 52⟩] := by
  refine ⟨by decide, by decide, by decide, by simp, ?_, by decide, ?_⟩
  · intro b hb
    rw [List.eq_of_mem_replicate hb]
    exact ⟨by decide, by decide⟩
  · have h := scan_block_lengthWarnings [] (List.replicate 50 "x = x + 1;") "void f() \x7b" "\x7d"
      (by decide) (by decide)
      (by intro b hb; rw [List.eq_of_mem_replicate hb]; decide) (by decide)
    simpa [scan_nil, LoopState.initial, warningAt] using h

/-- C4, amended: the measured length counts the opening and the closing line.  For a file
made of an opening line (an opening brace, neither `class` nor `namespace`), a body without
any brace and a line with a closing brace, the scan prints one length warning, on the last
line and for `body.length + 2` lines, when `body.length + 2 > 50`, and none otherwise: none
for a body of exactly 48 lines (50 lines in all), exactly one for a body of exactly 49 lines
(51 lines in all).  The file has fewer than `2 ^ 28` lines, so that no `int` counter of the
program overflows: all stay below `2 ^ 31`. -/
theorem length_threshold_counts_brace_lines (lo lc : String) (body : List String)
    (hbound : body.length + 2 < 2 ^ 28)
    (hbrace : contains lo "\x7b" = true) (hclass : contains lo "class" = false)
    (hnamespace : contains lo "namespace" = false)
    (hbody : ∀ b ∈ body, contains b "\x7b" = false ∧ contains b "\x7d" = false)
    (hclose : contains lc "\x7d" = true) :
    (scan (lo :: body ++ [lc])).cout.filter isLengthWarning
        = (if body.length + 2 > 50
            then [.diag ⟨.Warning, body.length + 2, .functionTooLong (body.length + 2)⟩]
            else [])
      ∧ (body.length = 48 → (scan (lo :: body ++ [lc])).cout.filter isLengthWarning = [])
      ∧ (body.length = 49 → (scan (lo :: body ++ [lc])).cout.filter isLengthWarning
          = [.diag ⟨.Warning, 51, .functionTooLong 51⟩])
      ∧ ((scan (lo :: body ++ [lc])).lineNumber < 2 ^ 31
          ∧ (scan (lo :: body ++ [lc])).warnings < 2 ^ 31
          ∧ (scan (lo :: body ++ [lc])).functionLineCount < 2 ^ 31) := by
  have hlen : (lo :: body ++ [lc]).length < 2 ^ 28 := by
    simp only [List.length_append, List.length_cons, List.length_nil]
    omega
  have h := scan_block_lengthWarnings [] body lo lc rfl
    (opensFunction_of lo hbrace hclass hnamespace) (fun b hb => (hbody b hb).2) hclose
  have h0 : (scan (lo :: body ++ [lc])).cout.filter isLengthWarning
      = (if body.length + 2 > 50
          then [.diag ⟨.Warning, body.length + 2, .functionTooLong (body.length + 2)⟩]
          else []) := by
    simpa [scan_nil, LoopState.initial, warningAt] using h
  refine ⟨h0, ?_, ?_, scan_counters_bounded _ hlen⟩
  · intro h48; rw [h0, h48]; rfl
  · intro h49; rw [h0, h49]; rfl

/-- Witness for C4 amended: a body of 49 lines. -/
theorem length_threshold_counts_brace_lines_witness :
    (List.replicate 49 "x = x + 1;").length + 2 < 2 ^ 28
      ∧ (∀ b ∈ List.replicate 49 "x = x + 1;", contains b "\x7b" = false ∧ contains b "\x7d" = false)
      ∧ (scan ("void f() \x7b" :: List.replicate 49 "x = x + 1;" ++ ["\x7d"])).cout.filter
            isLengthWarning
          = [.diag ⟨.Warning, 51, .functionTooLong 51⟩] :=
  have hb : ∀ b ∈ List.replicate 49 "x = x + 1;",
      contains b "\x7b" = false ∧ contains b "\x7d" = false := by
    intro b hb
    rw [List.eq_of_mem_replicate hb]
    exact ⟨by decide, by decide⟩
  ⟨by simp, hb, (length_threshold_counts_brace_lines "void f() \x7b" "\x7d"
    (List.replicate 49 "x = x + 1;") (by simp) (by decide) (by decide) (by decide) hb
      (by decide)).2.2.1 (by simp)⟩

/-- C5: for an Idle tracker (whatever its stale line count) and every line, the loop
iteration leaves the tracker InFunction exactly when the line contains an opening brace and
neither `class` nor `namespace`; then the line count is 1; otherwise the two tracker
variables are unchanged and the tracker prints nothing and counts nothing: the iteration
prints the rule diagnostics only. -/
theorem idle_tracker_opens_iff (s : LoopState) (line : String) (hidle : s.inFunction = false) :
    ((loopBody s line).inFunction = true
        ↔ (contains line "\x7b" = true ∧ contains line "class" = false
            ∧ contains line "namespace" = false))
      ∧ ((loopBody s line).inFunction = true → (loopBody s line).functionLineCount = 1)
      ∧ ((loopBody s line).inFunction = false →
          (loopBody s line).functionLineCount = s.functionLineCount
            ∧ trackerDiagnostics s line (s.lineNumber + 1) = []
            ∧ (loopBody s line).cout = s.cout ++ ruleDiagnostics line (s.lineNumber + 1)
            ∧ (loopBody s line).warnings
                = s.warnings + (ruleDiagnostics line (s.lineNumber + 1)).countP isWarning) := by
  have hcond : (contains line "\x7b" = true ∧ contains line "class" = false
      ∧ contains line "namespace" = false) ↔ opensFunction line = true := by
    unfold opensFunction; simp [and_assoc]
  rw [hcond]
  cases hopen : opensFunction line
  · have ht := fun n cout w => trackFunctionLength_idle line n cout w s.functionLineCount hopen
    have hin : (loopBody s line).inFunction = false := by
      rw [loopBody_inFunction, hidle, ht]
    have htd : trackerDiagnostics s line (s.lineNumber + 1) = [] := by
      unfold trackerDiagnostics; rw [hidle, ht]
    refine ⟨by simp [hin], by simp [hin], fun _ => ⟨?_, htd, ?_, ?_⟩⟩
    · rw [loopBody_functionLineCount, hidle, ht]
    · rw [loopBody_cout, htd, List.append_nil]
    · rw [loopBody_warnings, htd, List.append_nil]
  · have ht := fun n cout w => trackFunctionLength_open line n cout w s.functionLineCount hopen
    have hin : (loopBody s line).inFunction = true := by
      rw [loopBody_inFunction, hidle, ht]
    refine ⟨by simp [hin], fun _ => ?_, by simp [hin]⟩
    rw [loopBody_functionLineCount, hidle, ht]

/-- Witness for C5: an idle tracker with a stale count reads an opening line. -/
theorem idle_tracker_opens_iff_witness :
    (⟨[], 7, 0, 12, false⟩ : LoopState).inFunction = false
      ∧ (loopBody ⟨[], 7, 0, 12, false⟩ "int f() \x7b").inFunction = true
      ∧ (loopBody ⟨[], 7, 0, 12, false⟩ "int f() \x7b").functionLineCount = 1 :=
  have h := idle_tracker_opens_iff ⟨[], 7, 0, 12, false⟩ "int f() \x7b" rfl
  have hin := h.1.mpr ⟨by decide, by decide, by decide⟩
  ⟨rfl, hin, h.2.1 hin⟩

/-- C6: the output of the scan is the concatenation, over the positions `i = 0 .. n-1` of
the file in increasing order, of the rule diagnostics of the line at position `i` with line
number `i + 1` (nine rules in catalog order, a function of the line text and its number
alone) followed by what the tracker prints for that line given the state the first `i`
lines left; and the loop consumes each record once: its line counter ends at `n`.  The file
has fewer than `2 ^ 28` records, so that no `int` counter of the program overflows: all
stay below `2 ^ 31`. -/
theorem scan_output_is_per_line_concatenation (lines : List String)
    (hbound : lines.length < 2 ^ 28) :
    (scan lines).cout
        = (List.range lines.length).flatMap (fun i =>
            ruleDiagnostics (lines.getD i "") (i + 1)
              ++ trackerDiagnostics (scan (lines.take i)) (lines.getD i "") (i + 1))
      ∧ (scan lines).lineNumber = lines.length
      ∧ (∀ (line : String) (n : Nat), ruleDiagnostics line n
          = (checkRawPointers line n [] 0).1 ++ (checkNamespaceStd line n [] 0).1
            ++ (checkVectorAccess line n [] 0).1 ++ (checkIOUsage line n [] 0).1
            ++ (checkConstMethods line n [] 0).1 ++ (checkUninitVars line n [] 0).1
            ++ checkUnusedIncludes line n [] ++ (checkGoto line n [] 0).1
            ++ checkMissingReturnMain line n [])
      ∧ ((scan lines).lineNumber < 2 ^ 31 ∧ (scan lines).warnings < 2 ^ 31
          ∧ (scan lines).functionLineCount < 2 ^ 31) := by
  refine ⟨?_, scan_lineNumber lines, fun _ _ => rfl, scan_counters_bounded lines hbound⟩
  clear hbound
  induction lines using List.reverseRecOn with
  | nil => rfl
  | append_singleton xs l ih =>
    rw [scan_concat, loopBody_cout, scan_lineNumber, List.length_append, List.length_singleton,
      List.range_succ, List.flatMap_append, List.flatMap_singleton, ih]
    have hlast : (xs ++ [l]).getD xs.length "" = l := by
      rw [List.getD_append_right _ _ _ _ (Nat.le_refl _)]; simp
    rw [hlast, List.take_left]
    congr 1
    apply List.flatMap_congr
    intro i hi
    have hlt : i < xs.length := List.mem_range.mp hi
    rw [List.getD_append _ _ _ _ hlt, List.take_append_of_le_length (Nat.le_of_lt hlt)]

/-- Witness for C6: a three-line file whose second line prints two rule diagnostics. -/
theorem scan_output_is_per_line_concatenation_witness :
    ["int a;", "int* p; goto end;", "int b = 0;"].length < 2 ^ 28
      ∧ (scan ["int a;", "int* p; goto end;", "int b = 0;"]).cout
        = (List.range 3).flatMap (fun i =>
            ruleDiagnostics (["int a;", "int* p; goto end;", "int b = 0;"].getD i "") (i + 1)
              ++ trackerDiagnostics (scan (["int a;", "int* p; goto end;", "int b = 0;"].take i))
                  (["int a;", "int* p; goto end;", "int b = 0;"].getD i "") (i + 1)) :=
  ⟨by decide,
    (scan_output_is_per_line_concatenation ["int a;", "int* p; goto end;", "int b = 0;"]
      (by decide)).1⟩

/-- C7: on the file with the two records `#include <vector>` and `int x;`, `runLinter`
prints the AuditHeader note for line 1, the UninitVar warning for line 2 and the summary
with 1 warning, and nothing else. -/
theorem scenario_include_then_declaration (fs : FileSystem) (filename : String)
    (hfile : fs filename = some ["#include <vector>", "int x;"]) :
    runLinter fs filename
      = [.diag ⟨.Note, 1, .unusedIncludes⟩, .diag ⟨.Warning, 2, .uninitVars⟩,
          .summary 1 filename] := by
  have h : scan ["#include <vector>", "int x;"]
      = ⟨[.diag ⟨.Note, 1, .unusedIncludes⟩, .diag ⟨.Warning, 2, .uninitVars⟩], 2, 1, 0, false⟩ := by
    decide
  unfold runLinter
  rw [hfile]
  simp only [h]
  rfl

/-- Witness for C7. -/
theorem scenario_include_then_declaration_witness :
    (fun _ => some ["#include <vector>", "int x;"] : FileSystem) "demo.cpp"
        = some ["#include <vector>", "int x;"]
      ∧ runLinter (fun _ => some ["#include <vector>", "int x;"]) "demo.cpp"
        = [.diag ⟨.Note, 1, .unusedIncludes⟩, .diag ⟨.Warning, 2, .uninitVars⟩,
            .summary 1 "demo.cpp"] :=
  ⟨rfl, scenario_include_then_declaration (fun _ => some ["#include <vector>", "int x;"])
    "demo.cpp" rfl⟩

/-- C8: on the file with the two records `using namespace std;` and `int* p = new int;`,
`runLinter` prints the NamespaceStd warning for line 1 and the summary with 1 warning, and
nothing else; line 2 contains `new`, and `checkRawPointers` prints nothing for it. -/
theorem scenario_namespace_then_new (fs : FileSystem) (filename : String)
    (hfile : fs filename = some ["using namespace std;", "int* p = new int;"]) :
    runLinter fs filename = [.diag ⟨.Warning, 1, .namespaceStd⟩, .summary 1 filename]
      ∧ contains "int* p = new int;" "new" = true
      ∧ checkRawPointers "int* p = new int;" 2 [] 0 = ([], 0)
      ∧ ruleDiagnostics "int* p = new int;" 2 = [] := by
  have h : scan ["using namespace std;", "int* p = new int;"]
      = ⟨[.diag ⟨.Warning, 1, .namespaceStd⟩], 2, 1, 0, false⟩ := by
    decide
  refine ⟨?_, by decide, by decide, by decide⟩
  unfold runLinter
  rw [hfile]
  simp only [h]
  rfl

/-- Witness for C8. -/
theorem scenario_namespace_then_new_witness :
    (fun _ => some ["using namespace std;", "int* p = new int;"] : FileSystem) "demo.cpp"
        = some ["using namespace std;", "int* p = new int;"]
      ∧ runLinter (fun _ => some ["using namespace std;", "int* p = new int;"]) "demo.cpp"
        = [.diag ⟨.Warning, 1, .namespaceStd⟩, .summary 1 "demo.cpp"] :=
  ⟨rfl, (scenario_namespace_then_new
    (fun _ => some ["using namespace std;", "int* p = new int;"]) "demo.cpp" rfl).1⟩

/-- C9: when `argv` holds a file argument and that file cannot be opened, `main` prints one
record, the error message, whose text ends with the file name; the record is neither a
diagnostic nor a summary, and the exit status is 0. -/
theorem unopenable_file_prints_error_only (fs : FileSystem) (argv : List String)
    (hargs : 2 ≤ argv.length) (hfail : fs (argv.getD 1 "") = none) :
    main fs argv = ([.openError (argv.getD 1 "")], 0)
      ∧ render (.openError (argv.getD 1 "")) = "Error: Could not open file " ++ argv.getD 1 ""
      ∧ (∀ o ∈ (main fs argv).1, isDiagnostic o = false ∧ isSummary o = false) := by
  have hm : main fs argv = ([.openError (argv.getD 1 "")], 0) := by
    unfold main runLinter
    rw [if_neg (by omega), hfail]
  refine ⟨hm, rfl, ?_⟩
  intro o ho
  rw [hm] at ho
  simp only [List.mem_singleton] at ho
  subst ho
  exact ⟨rfl, rfl⟩

/-- Witness for C9: no file can be opened. -/
theorem unopenable_file_prints_error_only_witness :
    2 ≤ ["./linter", "missing.cpp"].length
      ∧ (fun _ => none : FileSystem) (["./linter", "missing.cpp"].getD 1 "") = none
      ∧ main (fun _ => none) ["./linter", "missing.cpp"] = ([.openError "missing.cpp"], 0) :=
  ⟨by decide, rfl,
    (unopenable_file_prints_error_only (fun _ => none) ["./linter", "missing.cpp"]
      (by decide) rfl).1⟩

/-- C10: the exit status of `main` is 1 exactly when `argc < 2`; then `main` prints the
usage message and nothing else (no diagnostic, no summary); with a file argument the exit
status is 0. -/
theorem exit_status_one_iff_no_argument (fs : FileSystem) (argv : List String) :
    ((main fs argv).2 = 1 ↔ argv.length < 2)
      ∧ (argv.length < 2 → main fs argv = ([.usage], 1))
      ∧ (2 ≤ argv.length → (main fs argv).2 = 0)
      ∧ render .usage = "Usage: ./linter <filename.cpp>"
      ∧ isDiagnostic .usage = false ∧ isSummary .usage = false := by
  refine ⟨?_, ?_, ?_, rfl, rfl, rfl⟩
  · unfold main
    split <;> simp_all
  · intro h
    unfold main
    rw [if_pos h]
  · intro h
    unfold main
    rw [if_neg (by omega)]

/-- Witness for C10: invoked with the program name only, and with one file argument. -/
theorem exit_status_one_iff_no_argument_witness :
    main (fun _ => some []) ["./linter"] = ([.usage], 1)
      ∧ (main (fun _ => some []) ["./linter", "a.cpp"]).2 = 0 :=
  ⟨(exit_status_one_iff_no_argument (fun _ => some []) ["./linter"]).2.1 (by decide),
    (exit_status_one_iff_no_argument (fun _ => some []) ["./linter", "a.cpp"]).2.2.1
      (by decide)⟩

/-! ## Monotonicity of the loop -/

theorem foldl_loopBody_extends (lines : List String) (s : LoopState) :
    s.cout <+: (lines.foldl loopBody s).cout ∧ s.warnings ≤ (lines.foldl loopBody s).warnings := by
  induction lines generalizing s with
  | nil => exact ⟨List.prefix_refl _, Nat.le_refl _⟩
  | cons l ls ih =>
    obtain ⟨i1, i2⟩ := ih (loopBody s l)
    have h1 : s.cout <+: (loopBody s l).cout := by
      rw [loopBody_cout]; exact List.prefix_append _ _
    have h2 : s.warnings ≤ (loopBody s l).warnings := by
      rw [loopBody_warnings]; omega
    rw [List.foldl_cons]
    exact ⟨h1.trans i1, Nat.le_trans h2 i2⟩

/-! ## What the tracker can print, and the invariant of its counter -/

theorem trackerDiagnostics_mem (s : LoopState) (line : String) (n : Nat) (o : Output)
    (ho : o ∈ trackerDiagnostics s line n) :
    s.inFunction = true ∧ contains line "\x7d" = true ∧ 50 < s.functionLineCount + 1
      ∧ o = warningAt n (.functionTooLong (s.functionLineCount + 1)) := by
  unfold trackerDiagnostics trackFunctionLength at ho
  split at ho
  · simp at ho
  · split at ho
    next hin =>
      dsimp only at ho
      split at ho
      next hc =>
        split at ho
        next hgt =>
          simp only [List.nil_append, List.mem_singleton] at ho
          exact ⟨hin, hc, hgt, ho⟩
        · simp at ho
      · simp at ho
    · simp at ho

theorem loopBody_count_invariant (s : LoopState) (line : String)
    (hle : s.functionLineCount ≤ s.lineNumber) :
    (loopBody s line).functionLineCount ≤ (loopBody s line).lineNumber
      ∧ ((loopBody s line).inFunction = true → 1 ≤ (loopBody s line).functionLineCount) := by
  rw [loopBody_functionLineCount, loopBody_inFunction, loopBody_lineNumber]
  unfold trackFunctionLength
  split
  · simp
  · split
    · dsimp only
      split
      · split <;> simp <;> omega
      · simp; omega
    next hin =>
      simp only [Bool.not_eq_true] at hin
      simp [hin]; omega

/-- After any number of lines the line count of the tracker is at most the number of lines
read, and at least 1 while the tracker is inside a function body. -/
theorem scan_count_invariant (lines : List String) :
    (scan lines).functionLineCount ≤ (scan lines).lineNumber
      ∧ ((scan lines).inFunction = true → 1 ≤ (scan lines).functionLineCount) := by
  induction lines using List.reverseRecOn with
  | nil => exact ⟨Nat.le_refl _, fun h => by simp [scan_nil, LoopState.initial] at h⟩
  | append_singleton xs l ih =>
    rw [scan_concat]
    exact loopBody_count_invariant _ _ ih.1

/-- Every length warning in the output of a scan was printed at a line that contains a
closing brace, and reports a length above 50 and at most that line's number. -/
theorem scan_lengthWarning_mem (lines : List String) (o : Output)
    (ho : o ∈ (scan lines).cout) (hlen : isLengthWarning o = true) :
    ∃ i k, i < lines.length ∧ contains (lines.getD i "") "\x7d" = true ∧ 50 < k ∧ k ≤ i + 1
      ∧ o = warningAt (i + 1) (.functionTooLong k) := by
  induction lines using List.reverseRecOn with
  | nil => simp [scan_nil, LoopState.initial] at ho
  | append_singleton xs l ih =>
    rw [scan_concat, loopBody_cout, List.mem_append, List.mem_append] at ho
    rcases ho with ho | ho | ho
    · obtain ⟨i, k, hi, hc, h50, hk, e⟩ := ih ho
      refine ⟨i, k, ?_, ?_, h50, hk, e⟩
      · rw [List.length_append]; omega
      · rw [List.getD_append _ _ _ _ hi]; exact hc
    · have hnil := ruleDiagnostics_lengthWarnings l ((scan xs).lineNumber + 1)
      rw [List.filter_eq_nil_iff] at hnil
      exact absurd hlen (hnil o ho)
    · obtain ⟨_, hc, h50, e⟩ := trackerDiagnostics_mem _ _ _ _ ho
      have hinv := (scan_count_invariant xs).1
      rw [scan_lineNumber] at hinv e
      refine ⟨xs.length, (scan xs).functionLineCount + 1, ?_, ?_, h50, by omega, e⟩
      · rw [List.length_append, List.length_singleton]; omega
      · rw [List.getD_append_right _ _ _ _ (Nat.le_refl _)]; simpa using hc

/-- C11: the scan is one forward pass.  Scanning `xs ++ ys` is continuing from the state the
scan of `xs` left; its output begins with exactly the output for `xs`, and its warning count
is at least the count for `xs`.  The whole input has fewer than `2 ^ 28` records, so that
no `int` counter of the program overflows: the counts stay below `2 ^ 31`. -/
theorem scan_is_single_forward_pass (xs ys : List String)
    (hbound : (xs ++ ys).length < 2 ^ 28) :
    scan (xs ++ ys) = ys.foldl loopBody (scan xs)
      ∧ (scan xs).cout <+: (scan (xs ++ ys)).cout
      ∧ (scan (xs ++ ys)).cout.take (scan xs).cout.length = (scan xs).cout
      ∧ (scan xs).warnings ≤ (scan (xs ++ ys)).warnings
      ∧ (scan (xs ++ ys)).warnings < 2 ^ 31
      ∧ (scan (xs ++ ys)).lineNumber < 2 ^ 31 := by
  have h := foldl_loopBody_extends ys (scan xs)
  rw [← scan_append] at h
  obtain ⟨b1, b2, _⟩ := scan_counters_bounded (xs ++ ys) hbound
  refine ⟨scan_append xs ys, h.1, ?_, h.2, b2, b1⟩
  obtain ⟨t, ht⟩ := h.1
  rw [← ht, List.take_left]

/-- Witness for C11: a two-line input continued by two more lines. -/
theorem scan_is_single_forward_pass_witness :
    (["goto a;", "int x;"] ++ ["int* p;", "using namespace std;"]).length < 2 ^ 28
      ∧ (scan ["goto a;", "int x;"]).cout
          <+: (scan (["goto a;", "int x;"] ++ ["int* p;", "using namespace std;"])).cout
      ∧ (scan ["goto a;", "int x;"]).warnings
          ≤ (scan (["goto a;", "int x;"] ++ ["int* p;", "using namespace std;"])).warnings :=
  have h := scan_is_single_forward_pass ["goto a;", "int x;"]
    ["int* p;", "using namespace std;"] (by decide)
  ⟨by decide, h.2.1, h.2.2.2.1⟩

/-- C13: the tracker prints only on a line that contains a closing brace, and only while
inside a function body; every length warning in the output of a scan carries the number of
a line of the file that contains a closing brace; and a body opened by an Idle tracker and
followed only by lines without a closing brace adds no length warning, however many lines
follow. -/
theorem length_warning_only_on_closing_line :
    (∀ (s : LoopState) (line : String) (n : Nat) (o : Output),
        o ∈ trackerDiagnostics s line n →
          contains line "\x7d" = true ∧ s.inFunction = true
            ∧ o = .diag ⟨.Warning, n, .functionTooLong (s.functionLineCount + 1)⟩)
      ∧ (∀ (lines : List String) (o : Output),
          o ∈ (scan lines).cout → isLengthWarning o = true →
            ∃ i k, i < lines.length ∧ contains (lines.getD i "") "\x7d" = true
              ∧ o = .diag ⟨.Warning, i + 1, .functionTooLong k⟩)
      ∧ (∀ (pre mid : List String) (lo : String),
          (scan pre).inFunction = false → contains lo "\x7b" = true →
          contains lo "class" = false → contains lo "namespace" = false →
          (∀ m ∈ mid, contains m "\x7d" = false) →
            (scan (pre ++ lo :: mid)).inFunction = true
              ∧ (scan (pre ++ lo :: mid)).cout.filter isLengthWarning
                  = (scan pre).cout.filter isLengthWarning)
      ∧ (∀ (mid : List String) (lo : String),
          contains lo "\x7b" = true → contains lo "class" = false →
          contains lo "namespace" = false → (∀ m ∈ mid, contains m "\x7d" = false) →
            (scan (lo :: mid)).cout.filter isLengthWarning = []) := by
  refine ⟨?_, ?_, ?_, ?_⟩
  · intro s line n o ho
    obtain ⟨h1, h2, _, h4⟩ := trackerDiagnostics_mem s line n o ho
    exact ⟨h2, h1, h4⟩
  · intro lines o ho hlen
    obtain ⟨i, k, hi, hc, _, _, e⟩ := scan_lengthWarning_mem lines o ho hlen
    exact ⟨i, k, hi, hc, e⟩
  · intro pre mid lo hidle hb hc hn hmid
    obtain ⟨i1, _, i3, _⟩ := scan_block_open pre mid lo hidle (opensFunction_of lo hb hc hn) hmid
    exact ⟨i1, i3⟩
  · intro mid lo hb hc hn hmid
    obtain ⟨_, _, i3, _⟩ := scan_block_open [] mid lo rfl (opensFunction_of lo hb hc hn) hmid
    simpa [scan_nil, LoopState.initial] using i3

/-- Witness for C13: a body opened on line 1 and never closed. -/
theorem length_warning_only_on_closing_line_witness :
    contains "void f() \x7b" "\x7b" = true
      ∧ (∀ m ∈ List.replicate 200 "x = x + 1;", contains m "\x7d" = false)
      ∧ (scan ("void f() \x7b" :: List.replicate 200 "x = x + 1;")).cout.filter isLengthWarning
          = [] :=
  have hm : ∀ m ∈ List.replicate 200 "x = x + 1;", contains m "\x7d" = false := by
    intro m hm
    rw [List.eq_of_mem_replicate hm]
    decide
  ⟨by decide, hm,
    length_warning_only_on_closing_line.2.2.2 (List.replicate 200 "x = x + 1;") "void f() \x7b"
      (by decide) (by decide) (by decide) hm⟩

/-- C14: after any number `n` of lines, a tracker that is InFunction has a line count between
1 and `n`; every length warning in the output reports a length that is at most the number
of the line it was printed for, which is at most `n`; and a file of at most 50 lines
produces no length warning.  Here `n` is below `2 ^ 28`, so that no `int` counter of the
program overflows: all stay below `2 ^ 31`. -/
theorem tracker_count_between_one_and_line_number (lines : List String)
    (hbound : lines.length < 2 ^ 28) :
    ((scan lines).inFunction = true →
        1 ≤ (scan lines).functionLineCount ∧ (scan lines).functionLineCount ≤ lines.length)
      ∧ (∀ o ∈ (scan lines).cout, isLengthWarning o = true →
          ∃ i k, o = .diag ⟨.Warning, i, .functionTooLong k⟩ ∧ k ≤ i ∧ i ≤ lines.length)
      ∧ (lines.length ≤ 50 → (scan lines).cout.filter isLengthWarning = [])
      ∧ ((scan lines).lineNumber < 2 ^ 31 ∧ (scan lines).warnings < 2 ^ 31
          ∧ (scan lines).functionLineCount < 2 ^ 31) := by
  have hinv := scan_count_invariant lines
  rw [scan_lineNumber] at hinv
  refine ⟨fun hin => ⟨hinv.2 hin, hinv.1⟩, ?_, ?_, scan_counters_bounded lines hbound⟩
  · intro o ho hlen
    obtain ⟨i, k, hi, _, _, hk, e⟩ := scan_lengthWarning_mem lines o ho hlen
    exact ⟨i + 1, k, e, hk, hi⟩
  · intro hshort
    rw [List.filter_eq_nil_iff]
    intro o ho hlen
    obtain ⟨i, k, hi, _, h50, hk, _⟩ := scan_lengthWarning_mem lines o ho hlen
    omega

/-- Witness for C14: three lines into an open body, and a short file. -/
theorem tracker_count_between_one_and_line_number_witness :
    ["int a;", "void f() \x7b", "a = 1;"].length < 2 ^ 28
      ∧ (scan ["int a;", "void f() \x7b", "a = 1;"]).inFunction = true
      ∧ 1 ≤ (scan ["int a;", "void f() \x7b", "a = 1;"]).functionLineCount
      ∧ (scan ["int a;", "void f() \x7b", "a = 1;"]).functionLineCount ≤ 3
      ∧ (scan ["int a;", "void f() \x7b", "a = 1;"]).cout.filter isLengthWarning = [] :=
  have h := tracker_count_between_one_and_line_number ["int a;", "void f() \x7b", "a = 1;"]
    (by decide)
  ⟨by decide, by decide, (h.1 (by decide)).1, (h.1 (by decide)).2, h.2.2.1 (by decide)⟩

/-- C15: on every line at most one of `checkNamespaceStd` and `checkIOUsage` prints, so
together they add at most 1 to the count, the nine rules print at most 6 warnings for a
line, and a loop iteration adds at most 6 to the count apart from the tracker's warning. -/
theorem namespaceStd_and_rawIO_never_both (line : String) (n : Nat) :
    ((checkNamespaceStd line n [] 0).1 = [] ∨ (checkIOUsage line n [] 0).1 = [])
      ∧ (checkNamespaceStd line n [] 0).2 + (checkIOUsage line n [] 0).2 ≤ 1
      ∧ (ruleDiagnostics line n).countP isWarning ≤ 6
      ∧ (∀ (s : LoopState), (loopBody s line).warnings
          ≤ s.warnings + 6 + (trackerDiagnostics s line (s.lineNumber + 1)).countP isWarning) := by
  have hex : ((checkNamespaceStd line n [] 0).1 = [] ∨ (checkIOUsage line n [] 0).1 = [])
      ∧ (checkNamespaceStd line n [] 0).2 + (checkIOUsage line n [] 0).2 ≤ 1 := by
    unfold checkNamespaceStd checkIOUsage
    cases h : contains line "using namespace std" <;> simp
    split <;> simp
  have hsum : ∀ m : Nat, (checkNamespaceStd line m [] 0).2 + (checkIOUsage line m [] 0).2 ≤ 1 := by
    intro m
    unfold checkNamespaceStd checkIOUsage
    cases h : contains line "using namespace std" <;> simp
    split <;> simp
  have hrules : ∀ m : Nat, (ruleDiagnostics line m).countP isWarning ≤ 6 := by
    intro m
    have h1 := checkRawPointers_le line m
    have h3 := checkVectorAccess_le line m
    have h5 := checkConstMethods_le line m
    have h6 := checkUninitVars_le line m
    have h8 := checkGoto_le line m
    have h24 := hsum m
    simp only [ruleDiagnostics, List.countP_append, checkUnusedIncludes_count,
      checkMissingReturnMain_count, ← checkRawPointers_count, ← checkNamespaceStd_count,
      ← checkVectorAccess_count, ← checkIOUsage_count, ← checkConstMethods_count,
      ← checkUninitVars_count, ← checkGoto_count]
    omega
  refine ⟨hex.1, hex.2, hrules n, ?_⟩
  intro s
  have h := hrules (s.lineNumber + 1)
  rw [loopBody_warnings, List.countP_append]
  omega

/-- The bound of six rule warnings for one line is reached. -/
theorem six_rule_warnings_attained :
    (ruleDiagnostics "int *get() \x7b vector[0]; goto x; cout" 1).countP isWarning = 6 := by
  decide

/-! ## Empty lines -/

theorem ruleDiagnostics_empty (n : Nat) : ruleDiagnostics "" n = [] := by
  have h1 : checkRawPointers "" n [] 0 = ([], 0) := by
    unfold checkRawPointers; rw [if_neg (by decide)]
  have h2 : checkNamespaceStd "" n [] 0 = ([], 0) := by
    unfold checkNamespaceStd; rw [if_neg (by decide)]
  have h3 : checkVectorAccess "" n [] 0 = ([], 0) := by
    unfold checkVectorAccess; rw [if_neg (by decide)]
  have h4 : checkIOUsage "" n [] 0 = ([], 0) := by
    unfold checkIOUsage; rw [if_neg (by decide)]
  have h5 : checkConstMethods "" n [] 0 = ([], 0) := by
    unfold checkConstMethods; rw [if_neg (by decide)]
  have h6 : checkUninitVars "" n [] 0 = ([], 0) := by
    unfold checkUninitVars; rw [if_neg (by decide)]
  have h7 : checkUnusedIncludes "" n [] = [] := by
    unfold checkUnusedIncludes; rw [if_neg (by decide)]
  have h8 : checkGoto "" n [] 0 = ([], 0) := by
    unfold checkGoto; rw [if_neg (by decide)]
  have h9 : checkMissingReturnMain "" n [] = [] := by
    unfold checkMissingReturnMain; rw [if_neg (by decide)]
  unfold ruleDiagnostics
  rw [h1, h2, h3, h4, h5, h6, h7, h8, h9]
  rfl

theorem trackerDiagnostics_empty (s : LoopState) (n : Nat) : trackerDiagnostics s "" n = [] := by
  unfold trackerDiagnostics trackFunctionLength
  rw [if_neg (by simp [show contains "" "\x7b" = false by decide])]
  split
  · dsimp only
    rw [if_neg (by decide)]
  · rfl

theorem foldl_loopBody_empty_lines (lines : List String) (s : LoopState)
    (hempty : ∀ l ∈ lines, l = "") :
    (lines.foldl loopBody s).cout = s.cout ∧ (lines.foldl loopBody s).warnings = s.warnings := by
  induction lines generalizing s with
  | nil => exact ⟨rfl, rfl⟩
  | cons l ls ih =>
    have hl : l = "" := hempty l (List.mem_cons_self _ _)
    subst hl
    obtain ⟨i1, i2⟩ := ih (loopBody s "") (fun x hx => hempty x (List.mem_cons_of_mem _ hx))
    rw [List.foldl_cons, i1, i2, loopBody_cout, loopBody_warnings, ruleDiagnostics_empty,
      trackerDiagnostics_empty]
    simp

/-- C16: on a file that opens and whose records are all empty, `runLinter` prints the
summary with 0 warnings and nothing else: the scan reads every record, prints no diagnostic
and counts nothing.  The file without any record is such a file. -/
theorem empty_lines_give_no_diagnostics (fs : FileSystem) (filename : String)
    (lines : List String) (hfile : fs filename = some lines) (hempty : ∀ l ∈ lines, l = "") :
    runLinter fs filename = [.summary 0 filename]
      ∧ (scan lines).cout = []
      ∧ (scan lines).warnings = 0
      ∧ (scan lines).lineNumber = lines.length
      ∧ (main fs ["./linter", filename]).2 = 0
      ∧ (scan []).cout = [] ∧ (scan []).warnings = 0 := by
  obtain ⟨h1, h2⟩ := foldl_loopBody_empty_lines lines LoopState.initial hempty
  have hc : (scan lines).cout = [] := h1
  have hw : (scan lines).warnings = 0 := h2
  refine ⟨?_, hc, hw, scan_lineNumber lines, rfl, rfl, rfl⟩
  unfold runLinter
  rw [hfile]
  simp only [hc, hw]
  rfl

/-- Witness for C16: the file without records. -/
theorem empty_lines_give_no_diagnostics_witness :
    (fun _ => some [] : FileSystem) "empty.cpp" = some []
      ∧ runLinter (fun _ => some []) "empty.cpp" = [.summary 0 "empty.cpp"] :=
  ⟨rfl, (empty_lines_give_no_diagnostics (fun _ => some []) "empty.cpp" [] rfl
    (by simp)).1⟩

/-! ## The stale line count of an idle tracker is never read -/

end CppLinter
